import Mathlib

/-!
Shallow embedding of the multi-tenant WhatsApp connection and delivery
manager (`src/whatsapp.js`, `src/handlers.js`, `src/whatsapp-web.js`).

JavaScript `Map` objects are modelled as insertion-ordered association
lists `List (String × α)`: `Map.get` returns the value of the first
matching key, `Map.set` overwrites in place (keeping the entry's
position) or appends a fresh entry, `Map.delete` removes the entry, and
iteration order is insertion order.  JavaScript `Set` objects are
modelled as duplicate-free lists with the analogous operations.
-/

namespace WhatsappServer

/-- JS `Map.prototype.get`: value of the first entry with the given key. -/
def jsGet {α : Type} : List (String × α) → String → Option α
  | [], _ => none
  | (k, v) :: rest, key => if k = key then some v else jsGet rest key

/-- JS `Map.prototype.set`: overwrite in place if the key is present
(keeping its position in iteration order), otherwise append. -/
def jsSet {α : Type} : List (String × α) → String → α → List (String × α)
  | [], key, value => [(key, value)]
  | (k, v) :: rest, key, value =>
    if k = key then (k, value) :: rest else (k, v) :: jsSet rest key value

/-- JS `Map.prototype.delete`: remove the entry with the given key. -/
def jsDelete {α : Type} : List (String × α) → String → List (String × α)
  | [], _ => []
  | (k, v) :: rest, key =>
    if k = key then jsDelete rest key else (k, v) :: jsDelete rest key

/-- JS `Set.prototype.add`: append if not already present. -/
def jsAdd : List String → String → List String
  | [], x => [x]
  | y :: rest, x => if y = x then y :: rest else y :: jsAdd rest x

/-- JS `Set.prototype.delete`: remove the element. -/
def jsErase : List String → String → List String
  | [], _ => []
  | y :: rest, x => if y = x then jsErase rest x else y :: jsErase rest x

@[simp] theorem jsGet_nil {α : Type} (key : String) : jsGet ([] : List (String × α)) key = none := rfl

theorem jsGet_jsSet_self {α : Type} (l : List (String × α)) (key : String) (value : α) :
    jsGet (jsSet l key value) key = some value := by
  induction l with
  | nil => simp [jsGet, jsSet]
  | cons p rest ih =>
    obtain ⟨k, v⟩ := p
    by_cases h : k = key
    · simp [jsGet, jsSet, h]
    · simp [jsGet, jsSet, h, ih]

theorem jsGet_jsSet_ne {α : Type} (l : List (String × α)) {key key' : String} (value : α)
    (h : key ≠ key') : jsGet (jsSet l key value) key' = jsGet l key' := by
  induction l with
  | nil => simp [jsGet, jsSet, h]
  | cons p rest ih =>
    obtain ⟨k, v⟩ := p
    by_cases hk : k = key
    · subst hk
      simp [jsGet, jsSet, h]
    · simp only [jsSet, if_neg hk]
      by_cases hk' : k = key'
      · simp [jsGet, hk']
      · simp [jsGet, hk', ih]

theorem jsGet_jsDelete_self {α : Type} (l : List (String × α)) (key : String) :
    jsGet (jsDelete l key) key = none := by
  induction l with
  | nil => simp [jsDelete]
  | cons p rest ih =>
    obtain ⟨k, v⟩ := p
    by_cases h : k = key
    · simp [jsDelete, h, ih]
    · simp [jsDelete, jsGet, h, ih]

theorem jsGet_jsDelete_ne {α : Type} (l : List (String × α)) {key key' : String}
    (h : key ≠ key') : jsGet (jsDelete l key) key' = jsGet l key' := by
  induction l with
  | nil => simp [jsDelete]
  | cons p rest ih =>
    obtain ⟨k, v⟩ := p
    by_cases hk : k = key
    · subst hk
      simp [jsDelete, jsGet, h, ih]
    · by_cases hk' : k = key'
      · subst hk'
        simp [jsDelete, jsGet, hk, Ne.symm h]
      · simp [jsDelete, jsGet, hk, hk', ih]

theorem jsGet_eq_none_of_not_mem {α : Type} (l : List (String × α)) (key : String)
    (h : key ∉ l.map Prod.fst) : jsGet l key = none := by
  induction l with
  | nil => rfl
  | cons p rest ih =>
    obtain ⟨k, v⟩ := p
    simp only [List.map_cons, List.mem_cons] at h
    push_neg at h
    have hk : k ≠ key := fun hkk => h.1 hkk.symm
    simp [jsGet, hk, ih h.2]

theorem jsDelete_of_not_mem {α : Type} (l : List (String × α)) (key : String)
    (h : key ∉ l.map Prod.fst) : jsDelete l key = l := by
  induction l with
  | nil => rfl
  | cons p rest ih =>
    obtain ⟨k, v⟩ := p
    simp only [List.map_cons, List.mem_cons] at h
    push_neg at h
    have hk : k ≠ key := fun hkk => h.1 hkk.symm
    simp [jsDelete, hk, ih h.2]

theorem keys_jsSet {α : Type} (l : List (String × α)) (key : String) (value : α) :
    (jsSet l key value).map Prod.fst =
      if key ∈ l.map Prod.fst then l.map Prod.fst else l.map Prod.fst ++ [key] := by
  induction l with
  | nil => simp [jsSet]
  | cons p rest ih =>
    obtain ⟨k, v⟩ := p
    by_cases h : k = key
    · simp [jsSet, h]
    · simp only [jsSet, if_neg h, List.map_cons, ih]
      by_cases hm : key ∈ rest.map Prod.fst
      · simp [hm, Ne.symm h]
      · simp [hm, Ne.symm h]

theorem nodup_keys_jsSet {α : Type} (l : List (String × α)) (key : String) (value : α)
    (h : (l.map Prod.fst).Nodup) : ((jsSet l key value).map Prod.fst).Nodup := by
  rw [keys_jsSet]
  by_cases hm : key ∈ l.map Prod.fst
  · simpa [hm]
  · rw [if_neg hm]
    refine List.Nodup.append h (List.nodup_singleton key) ?_
    intro a ha hb
    simp only [List.mem_singleton] at hb
    subst hb
    exact hm ha

theorem mem_jsErase {s : List String} {x y : String} :
    y ∈ jsErase s x ↔ y ∈ s ∧ y ≠ x := by
  induction s with
  | nil => simp [jsErase]
  | cons z rest ih =>
    by_cases h : z = x
    · subst h
      rw [show jsErase (z :: rest) z = jsErase rest z from by simp [jsErase], ih]
      simp only [List.mem_cons]
      constructor
      · rintro ⟨hy, hne⟩
        exact ⟨Or.inr hy, hne⟩
      · rintro ⟨hy | hy, hne⟩
        · exact absurd hy hne
        · exact ⟨hy, hne⟩
    · rw [show jsErase (z :: rest) x = z :: jsErase rest x from by simp [jsErase, h]]
      simp only [List.mem_cons, ih]
      constructor
      · rintro (rfl | ⟨hy, hne⟩)
        · exact ⟨Or.inl rfl, h⟩
        · exact ⟨Or.inr hy, hne⟩
      · rintro ⟨rfl | hy, hne⟩
        · exact Or.inl rfl
        · exact Or.inr ⟨hy, hne⟩

/-! ## Data model (`src/whatsapp.js`) -/

/-- JS `x || null` for an optional string: the empty string is falsy and
collapses to `null`. -/
def orNullStr : Option String → Option String
  | some "" => none
  | o => o

/-- JS `x || null` for an optional numeric field: `0` is falsy and
collapses to `null`. -/
def orNullNat : Option Nat → Option Nat
  | some 0 => none
  | o => o

/-- A Baileys message key (`message.key`). -/
structure MsgKey where
  id : String
  remoteJid : String
  fromMe : Bool
  participant : Option String
  deriving DecidableEq

/-- An incoming protocol message as seen by `storeMessage` /
`messages.upsert`.  The payload object `message.message` is abstracted
to an optional opaque string. -/
structure WAMessage where
  key : MsgKey
  message : Option String
  messageTimestamp : Nat
  status : Option Nat
  deriving DecidableEq

/-- The entry stored in `MessageStore.messages`
(`src/whatsapp.js` lines 32-38). -/
structure MessageData where
  key : MsgKey
  message : Option String
  messageTimestamp : Nat
  status : Option Nat
  participant : Option String
  deriving DecidableEq

/-- The per-tenant Message Cache (`class MessageStore`,
`src/whatsapp.js` lines 18-100). -/
structure MessageStore where
  merchantId : String
  messages : List (String × MessageData)
  messagesByJid : List (String × List String)
  maxMessages : Nat
  deriving DecidableEq

/-- `new MessageStore(merchantId)`. -/
def MessageStore.init (merchantId : String) : MessageStore :=
  { merchantId := merchantId, messages := [], messagesByJid := [], maxMessages := 1000 }

/-- `messagesByJid.get(jid)?.delete(messageId)`: remove the id from the
jid's set when that set exists, otherwise do nothing. -/
def jidSetDelete (m : List (String × List String)) (jid messageId : String) :
    List (String × List String) :=
  match jsGet m jid with
  | none => m
  | some s => jsSet m jid (jsErase s messageId)

/-- One iteration of the `cleanup` loop (`src/whatsapp.js` lines 83-93):
look the id up in the current map, compensate the secondary index using
the stored entry's `remoteJid`, then delete the id from the primary map. -/
def cleanupStep (s : MessageStore) (messageId : String) : MessageStore :=
  let s1 :=
    match jsGet s.messages messageId with
    | some messageData =>
        { s with messagesByJid := jidSetDelete s.messagesByJid messageData.key.remoteJid messageId }
    | none => s
  { s1 with messages := jsDelete s1.messages messageId }

/-- `MessageStore.cleanup` (`src/whatsapp.js` lines 77-99): remove the
oldest `Math.floor(size * 0.2)` entries by insertion order.  For the
sizes reachable here `Math.floor(size * 0.2)` computed in IEEE doubles
equals `size / 5` in natural-number division (0.2 rounds up by ≈1.1e-17,
so `size * 0.2` errs above the exact value by less than half an ulp and
never crosses an integer boundary). -/
def MessageStore.cleanup (s : MessageStore) : MessageStore :=
  let messagesToRemove := s.messages.length / 5
  let messageIds := s.messages.map Prod.fst
  (messageIds.take messagesToRemove).foldl cleanupStep s

/-- The insertion part of `storeMessage` (`src/whatsapp.js` lines 26-47):
build the stored entry, overwrite the primary map, and index the id
under its `remoteJid` in the secondary index. -/
def MessageStore.storeInsert (s : MessageStore) (m : WAMessage) : MessageStore :=
  let messageId := m.key.id
  let jid := m.key.remoteJid
  let messageData : MessageData :=
    { key := m.key, message := m.message, messageTimestamp := m.messageTimestamp,
      status := orNullNat m.status, participant := orNullStr m.key.participant }
  let messages1 := jsSet s.messages messageId messageData
  let byJid0 :=
    if (jsGet s.messagesByJid jid).isNone then jsSet s.messagesByJid jid [] else s.messagesByJid
  let byJid1 := jsSet byJid0 jid (jsAdd ((jsGet byJid0 jid).getD []) messageId)
  { s with messages := messages1, messagesByJid := byJid1 }

/-- `MessageStore.storeMessage` (`src/whatsapp.js` lines 26-57): insert,
then clean up when the size exceeds `maxMessages`. -/
def MessageStore.storeMessage (s : MessageStore) (m : WAMessage) : MessageStore :=
  let s2 := s.storeInsert m
  if s2.messages.length > s2.maxMessages then s2.cleanup else s2

/-- `MessageStore.getMessage` (`src/whatsapp.js` lines 59-75). -/
def MessageStore.getMessage (s : MessageStore) (key : MsgKey) : Option MessageData :=
  jsGet s.messages key.id

/-! ## Process-wide state (`global.*` maps) and tenant records -/

/-- The `connectionInfo` record stored in `global.connections`
(`src/whatsapp.js` lines 564-571).  The live socket handle is abstracted
to its presence. -/
structure ConnectionInfo where
  socket : Option Unit
  status : String
  phone : Option String
  pushName : Option String
  connectedAt : Nat
  deriving DecidableEq

/-- A Delivery Record stored in `global.deliveryConfirmations`
(`src/whatsapp.js` lines 696-702).  The source field `to` is named
`recipient` here because `to` is a reserved word in Lean. -/
structure Confirmation where
  status : String
  timestamp : Nat
  merchantId : String
  recipient : String
  attempt : Nat
  deliveredAt : Option Nat := none
  readAt : Option Nat := none
  deriving DecidableEq

/-- The client record stored in `global.whatsappClients`
(`src/whatsapp-web.js`). -/
structure WebClientInfo where
  client : Option Unit
  status : String
  deriving DecidableEq

/-- The process-wide mutable state: `global.connections`,
`global.qrCodes`, `global.messageStores`, `global.messageSendTimestamps`
(which holds both rate-limit timestamps and `:error` counters),
`global.deliveryConfirmations`, and `global.whatsappClients`. -/
structure GlobalState where
  connections : List (String × ConnectionInfo)
  qrCodes : List (String × String)
  messageStores : List (String × MessageStore)
  sendTimestamps : List (String × Nat)
  deliveryConfirmations : List (String × Confirmation)
  whatsappClients : List (String × WebClientInfo)
  deriving DecidableEq

/-! ## Outbound dispatcher (`sendMessage`, `src/whatsapp.js` lines 648-756)

The asynchronous pieces are made explicit: `now` is `Date.now()` at
entry; the rate-limit sleep is idealized, so the dispatch attempt
happens at `effectiveDispatch lastSentTime now`; the protocol client's
`socket.sendMessage` outcome is passed in as `outcome`; the delivery
wait's `Promise.race` outcome is determined by `confirmedDuringWait`
(whether a poll observed status `delivered` within the window) and
`pollDetectedAt` (milliseconds after dispatch at which that poll fired). -/

/-- `MIN_DELAY_MS` (`src/whatsapp.js` line 663). -/
def MIN_DELAY_MS : Nat := 2000

/-- The 5s delivery-confirmation timeout (`src/whatsapp.js` line 709). -/
def DELIVERY_TIMEOUT_MS : Nat := 5000

/-- Whether the merchant passes the connection check
(`if (!connection || !connection.socket)`, lines 653-657). -/
def connLive (g : GlobalState) (merchantId : String) : Bool :=
  match jsGet g.connections merchantId with
  | some c => c.socket.isSome
  | none => false

/-- The time at which the dispatch attempt happens: if less than
`MIN_DELAY_MS` has elapsed since the last send to this recipient the
call sleeps for the remainder (lines 665-669), otherwise it proceeds
immediately. -/
def effectiveDispatch (lastSentTime now : Nat) : Nat :=
  if now < lastSentTime + MIN_DELAY_MS then lastSentTime + MIN_DELAY_MS else now

/-- The value returned by `connection.socket.sendMessage` on success. -/
structure SentMsg where
  id : String
  timestamp : Nat
  deriving DecidableEq

/-- Outcome of the protocol client's send command: a result object, or a
thrown error. -/
inductive SendOutcome where
  | ok (result : SentMsg)
  | fail
  deriving DecidableEq

/-- The object returned by `sendMessage` on success
(`src/whatsapp.js` lines 734-743).  Note that it has no field carrying
the delivery-confirmation outcome. -/
structure SendResultData where
  messageId : String
  timestamp : Nat
  deliveryWaitTime : Nat
  rateLimitApplied : Bool
  rateLimitWaitTime : Nat
  deriving DecidableEq

/-- How a `sendMessage` call concludes: the `NotConnected` throw
(line 656), a rethrown protocol failure (line 754), or the success
return value. -/
inductive SendResult where
  | notConnected
  | sendFailed
  | success (data : SendResultData)
  deriving DecidableEq

/-- The `Promise.race` between the 5s delivery timeout and the 100ms
polling check (`src/whatsapp.js` lines 708-725): `(confirmed, millis
after dispatch at which the race resolved)`.  When no poll observes
`delivered` the timeout fires at exactly `DELIVERY_TIMEOUT_MS`. -/
def deliveryWaitOutcome (confirmedDuringWait : Bool) (pollDetectedAt : Nat) : Bool × Nat :=
  if confirmedDuringWait then (true, pollDetectedAt) else (false, DELIVERY_TIMEOUT_MS)

/-- `sendMessage(merchantId, to, message, options)`
(`src/whatsapp.js` lines 648-756).  The source parameter `to` is named
`recipient` (`to` is reserved in Lean).  Effects in order: connection
check; rate-limit wait; ledger write at `merchantId:to` *before*
dispatch; dispatch; on failure increment the `merchantId:to:error`
counter (kept in the same map) and rethrow; on success create the
Delivery Record with status `sent`, optionally wait for confirmation,
and return the result object (which ignores the wait's outcome).
The `NotConnected` throw at line 656 sits inside the same try block, so
the catch (lines 745-755) also increments the `merchantId:to:error`
counter before rethrowing on that path. -/
def sendMessage (g : GlobalState) (merchantId recipient _message : String)
    (waitForDelivery : Bool) (now : Nat) (outcome : SendOutcome)
    (confirmedDuringWait : Bool) (pollDetectedAt : Nat) : GlobalState × SendResult :=
  if connLive g merchantId then
    let lastSentKey := merchantId ++ ":" ++ recipient
    let lastSentTime := (jsGet g.sendTimestamps lastSentKey).getD 0
    let rateLimitApplied := decide (now < lastSentTime + MIN_DELAY_MS)
    let dispatchAt := effectiveDispatch lastSentTime now
    let g1 := { g with sendTimestamps := jsSet g.sendTimestamps lastSentKey dispatchAt }
    match outcome with
    | .fail =>
        let errorKey := merchantId ++ ":" ++ recipient ++ ":error"
        let errorCount := (jsGet g1.sendTimestamps errorKey).getD 0 + 1
        ({ g1 with sendTimestamps := jsSet g1.sendTimestamps errorKey errorCount }, .sendFailed)
    | .ok result =>
        let newRecord : Confirmation :=
          { status := "sent", timestamp := dispatchAt, merchantId := merchantId,
            recipient := recipient, attempt := 1 }
        let dc2 := jsSet g1.deliveryConfirmations result.id newRecord
        let g2 := { g1 with deliveryConfirmations := dc2 }
        let waitMs := if waitForDelivery then (deliveryWaitOutcome confirmedDuringWait pollDetectedAt).2 else 0
        (g2, .success
          { messageId := result.id
            timestamp := result.timestamp
            deliveryWaitTime := dispatchAt + waitMs - now
            rateLimitApplied := rateLimitApplied
            rateLimitWaitTime := if now < lastSentTime + MIN_DELAY_MS
                                 then lastSentTime + MIN_DELAY_MS - now else 0 })
  else
    let errorKey := merchantId ++ ":" ++ recipient ++ ":error"
    let errorCount := (jsGet g.sendTimestamps errorKey).getD 0 + 1
    ({ g with sendTimestamps := jsSet g.sendTimestamps errorKey errorCount }, .notConnected)

/-! ## Protocol-event handlers (`socket.ev.on`, `src/whatsapp.js`) -/

/-- A receipt object from a `message-receipt.update` event
(`update.receipt`). -/
structure Receipt where
  rtype : Option String
  deliveryTimestamp : Option Nat
  readTimestamp : Option Nat
  deriving DecidableEq

/-- One element of a `message-receipt.update` batch, reduced to the
fields the handler reads (`update.key.id` and `update.receipt`). -/
structure ReceiptUpdate where
  messageId : String
  receipt : Receipt
  deriving DecidableEq

/-- The status update applied to an existing Delivery Record by the
receipt handler (`src/whatsapp.js` lines 376-385): a delivery-type
receipt sets `delivered`, else a read-type receipt sets `read`
(JS truthiness: a `0` timestamp is falsy). -/
def applyReceipt (c : Confirmation) (r : Receipt) (now : Nat) : Confirmation :=
  if r.rtype = some "delivery" ∨ r.deliveryTimestamp.getD 0 ≠ 0 then
    { c with status := "delivered", deliveredAt := some now }
  else if r.rtype = some "read" ∨ r.readTimestamp.getD 0 ≠ 0 then
    { c with status := "read", readAt := some now }
  else c

/-- One iteration of the `message-receipt.update` loop
(`src/whatsapp.js` lines 363-389): look the Delivery Record up in the
global map by `update.key.id` alone and, when present, apply the
receipt. -/
def receiptStep (now : Nat) (gs : GlobalState) (u : ReceiptUpdate) : GlobalState :=
  match jsGet gs.deliveryConfirmations u.messageId with
  | some confirmation =>
      let dc := jsSet gs.deliveryConfirmations u.messageId (applyReceipt confirmation u.receipt now)
      { gs with deliveryConfirmations := dc }
  | none => gs

/-- The `message-receipt.update` handler registered on a tenant's socket
(`src/whatsapp.js` lines 362-390).  It looks records up in the global
`deliveryConfirmations` map by message id alone; `merchantId` (the
tenant owning the socket) is used only for logging. -/
def receiptHandler (g : GlobalState) (_merchantId : String) (updates : List ReceiptUpdate)
    (now : Nat) : GlobalState :=
  updates.foldl (receiptStep now) g

/-- The `messages.upsert` handler (`src/whatsapp.js` lines 393-460):
store every message of the batch into the tenant's own message store,
when that store exists.  The webhook notification is external. -/
def upsertHandler (g : GlobalState) (merchantId : String) (msgs : List WAMessage) : GlobalState :=
  match jsGet g.messageStores merchantId with
  | none => g
  | some store =>
      { g with messageStores :=
          jsSet g.messageStores merchantId (msgs.foldl MessageStore.storeMessage store) }

/-- The `getMessage` resend-resolution callback's standard path
(`src/whatsapp.js` lines 176-220): read the tenant's own store. -/
def getMessageForTenant (g : GlobalState) (merchantId : String) (key : MsgKey) :
    Option MessageData :=
  match jsGet g.messageStores merchantId with
  | none => none
  | some store => store.getMessage key

/-- Baileys `DisconnectReason.loggedOut`. -/
def DisconnectReasonLoggedOut : Nat := 401

/-- Baileys `DisconnectReason.connectionClosed`. -/
def DisconnectReasonConnectionClosed : Nat := 428

/-- Result of the `connection === 'close'` branch of the
`connection.update` handler. -/
structure CloseOutcome where
  state : GlobalState
  reconnectDelayMs : Option Nat
  notifiedDisconnected : Bool
  deriving DecidableEq

/-- The close branch of the `connection.update` handler
(`src/whatsapp.js` lines 522-551): when the disconnect status code is
anything but `loggedOut`, schedule exactly one reconnect attempt (1s
after an ordinary `connectionClosed`, 3s otherwise) and leave all state
alone; on `loggedOut`, deregister the tenant from the connection
registry, the QR map and the message-store map and schedule nothing. -/
def handleConnectionClose (g : GlobalState) (merchantId : String) (statusCode : Option Nat) :
    CloseOutcome :=
  let shouldReconnect := statusCode ≠ some DisconnectReasonLoggedOut
  if shouldReconnect then
    let reconnectDelay :=
      if statusCode = some DisconnectReasonConnectionClosed then 1000 else 3000
    { state := g, reconnectDelayMs := some reconnectDelay, notifiedDisconnected := false }
  else
    { state :=
        { g with connections := jsDelete g.connections merchantId,
                 qrCodes := jsDelete g.qrCodes merchantId,
                 messageStores := jsDelete g.messageStores merchantId },
      reconnectDelayMs := none,
      notifiedDisconnected := true }

/-! ## HTTP-facing handlers (`src/handlers.js`, `src/whatsapp-web.js`) -/

/-- Response of `handleAuth` (`src/handlers.js` lines 5-73). -/
inductive AuthResponse where
  | badRequest
  | alreadyConnected (phone pushName : Option String)
  | initializing
  deriving DecidableEq

/-- `handleAuth` (`src/handlers.js` lines 5-73), as
`(state, response, startedNewConnection)`: reject a missing merchant id;
answer `already_connected` with the stored phone/pushName when the
registered connection has status `connected`; otherwise respond
immediately and start `createWhatsAppConnection` in the background. -/
def handleAuth (g : GlobalState) (merchantId : Option String) :
    GlobalState × AuthResponse × Bool :=
  match merchantId with
  | none => (g, .badRequest, false)
  | some m =>
    match jsGet g.connections m with
    | some existingConnection =>
        if existingConnection.status = "connected" then
          (g, .alreadyConnected existingConnection.phone existingConnection.pushName, false)
        else (g, .initializing, true)
    | none => (g, .initializing, true)

/-- Response of `handleDisconnect` (`src/handlers.js` lines 75-116). -/
inductive DisconnectResponse where
  | badRequest
  | ok
  | serverError
  deriving DecidableEq

/-- `handleDisconnect` (`src/handlers.js` lines 75-116), as
`(state, response, sessionFilesWiped)`.  `logoutFails` says whether
`connection.socket.logout()` (or `.end()`) throws.  The logout call is
*not* wrapped in its own try/catch: a throw propagates to the outer
catch, which answers 500 — the registry/QR deletions and the session
file wipe that follow the logout are skipped. -/
def handleDisconnect (g : GlobalState) (merchantId : Option String) (logoutFails : Bool) :
    GlobalState × DisconnectResponse × Bool :=
  match merchantId with
  | none => (g, .badRequest, false)
  | some m =>
    let live := match jsGet g.connections m with
                | some c => c.socket.isSome
                | none => false
    if live && logoutFails then (g, .serverError, false)
    else
      ({ g with connections := jsDelete g.connections m,
                qrCodes := jsDelete g.qrCodes m }, .ok, true)

/-- `disconnectClient` (`src/whatsapp-web.js` lines 491-528), as
`(state, succeeded, sessionFilesWiped)`.  Both the try path and the
catch path delete the client registry entry and the QR entry and force
a session-file wipe, so cleanup runs whether or not the logout/destroy
calls fail. -/
def disconnectClient (g : GlobalState) (merchantId : String) (logoutFails : Bool) :
    GlobalState × Bool × Bool :=
  let live := match jsGet g.whatsappClients merchantId with
              | some c => c.client.isSome
              | none => false
  let cleaned :=
    { g with whatsappClients := jsDelete g.whatsappClients merchantId,
             qrCodes := jsDelete g.qrCodes merchantId }
  if live && logoutFails then (cleaned, false, true)
  else (cleaned, true, true)

/-! ## Helper lemmas -/

/-- A tenant id contains no `':'` separator, so concatenated ledger keys
`tenantId + ":" + recipient` cannot collide across tenants. -/
def noColon (s : String) : Prop := (':' : Char) ∉ s.data

instance noColonDecidable (s : String) : Decidable (noColon s) :=
  inferInstanceAs (Decidable ((':' : Char) ∉ s.data))

theorem append_cons_inj {c : Char} :
    ∀ (l1 l2 r1 r2 : List Char), c ∉ l1 → c ∉ l2 →
      l1 ++ c :: r1 = l2 ++ c :: r2 → l1 = l2 := by
  intro l1
  induction l1 with
  | nil =>
    intro l2 r1 r2 _ h2 h
    cases l2 with
    | nil => rfl
    | cons b t =>
      simp only [List.nil_append, List.cons_append, List.cons.injEq] at h
      exact absurd (h.1 ▸ List.mem_cons_self b t) h2
  | cons a t ih =>
    intro l2 r1 r2 h1 h2 h
    cases l2 with
    | nil =>
      simp only [List.nil_append, List.cons_append, List.cons.injEq] at h
      exact absurd (h.1 ▸ List.mem_cons_self a t) h1
    | cons b t2 =>
      simp only [List.cons_append, List.cons.injEq] at h
      obtain ⟨rfl, h⟩ := h
      rw [ih t2 r1 r2 (fun hm => h1 (List.mem_cons_of_mem _ hm))
        (fun hm => h2 (List.mem_cons_of_mem _ hm)) h]

theorem append_colon_inj {a b x y : String} (ha : noColon a) (hb : noColon b)
    (h : a ++ ":" ++ x = b ++ ":" ++ y) : a = b := by
  have hd : a.data ++ ':' :: x.data = b.data ++ ':' :: y.data := by
    have hc := congrArg String.data h
    simpa [String.data_append] using hc
  exact String.ext (append_cons_inj a.data b.data x.data y.data ha hb hd)

theorem append_error_ne (s : String) : s ++ ":error" ≠ s := by
  intro h
  have h2 : (s ++ ":error").length = s.length := by rw [h]
  rw [String.length_append] at h2
  have h6 : (":error" : String).length = 6 := rfl
  omega

theorem applyReceipt_merchantId (c : Confirmation) (r : Receipt) (now : Nat) :
    (applyReceipt c r now).merchantId = c.merchantId := by
  unfold applyReceipt
  split
  · rfl
  · split <;> rfl

/-- What a single receipt-loop iteration does to the record at any id. -/
theorem jsGet_receiptStep (now : Nat) (gs : GlobalState) (u : ReceiptUpdate) (id : String) :
    jsGet (receiptStep now gs u).deliveryConfirmations id =
      if id = u.messageId then
        (jsGet gs.deliveryConfirmations u.messageId).map (fun c => applyReceipt c u.receipt now)
      else jsGet gs.deliveryConfirmations id := by
  cases h : jsGet gs.deliveryConfirmations u.messageId with
  | none =>
    by_cases hid : id = u.messageId
    · subst hid
      simp [receiptStep, h]
    · simp [receiptStep, h, hid]
  | some c =>
    by_cases hid : id = u.messageId
    · subst hid
      simp [receiptStep, h, jsGet_jsSet_self]
    · simp [receiptStep, h, hid, jsGet_jsSet_ne _ _ (fun he => hid he.symm)]

theorem receiptStep_messageStores (now : Nat) (gs : GlobalState) (u : ReceiptUpdate) :
    (receiptStep now gs u).messageStores = gs.messageStores := by
  unfold receiptStep
  split <;> rfl

theorem receiptStep_sendTimestamps (now : Nat) (gs : GlobalState) (u : ReceiptUpdate) :
    (receiptStep now gs u).sendTimestamps = gs.sendTimestamps := by
  unfold receiptStep
  split <;> rfl

theorem receiptHandler_messageStores (g : GlobalState) (m : String) (us : List ReceiptUpdate)
    (now : Nat) : (receiptHandler g m us now).messageStores = g.messageStores := by
  unfold receiptHandler
  induction us generalizing g with
  | nil => rfl
  | cons u rest ih =>
    rw [List.foldl_cons, ih, receiptStep_messageStores]

theorem receiptHandler_sendTimestamps (g : GlobalState) (m : String) (us : List ReceiptUpdate)
    (now : Nat) : (receiptHandler g m us now).sendTimestamps = g.sendTimestamps := by
  unfold receiptHandler
  induction us generalizing g with
  | nil => rfl
  | cons u rest ih =>
    rw [List.foldl_cons, ih, receiptStep_sendTimestamps]

/-! ## Tenant-observables used by the isolation claims -/

/-- Tenant `t`'s Message Cache. -/
def storeOfTenant (g : GlobalState) (t : String) : Option MessageStore :=
  jsGet g.messageStores t

/-- Tenant `t`'s Delivery Records (the records whose stored `merchantId`
is `t`) are untouched between `g` and `g2`. -/
def recordsOfTenantUnchanged (g g2 : GlobalState) (t : String) : Prop :=
  ∀ id c, c.merchantId = t →
    (jsGet g.deliveryConfirmations id = some c ↔ jsGet g2.deliveryConfirmations id = some c)

/-- Tenant `t`'s Rate-Limit Ledger entries (the keys of the form
`t ++ ":" ++ recipient`) are untouched between `g` and `g2`. -/
def ledgerOfTenantUnchanged (g g2 : GlobalState) (t : String) : Prop :=
  ∀ suffix, jsGet g2.sendTimestamps (t ++ ":" ++ suffix) =
    jsGet g.sendTimestamps (t ++ ":" ++ suffix)

theorem receiptHandler_records (t : String) :
    ∀ (us : List ReceiptUpdate) (g : GlobalState) (m : String) (now : Nat),
      (∀ u ∈ us, ∀ c, jsGet g.deliveryConfirmations u.messageId = some c → c.merchantId ≠ t) →
      recordsOfTenantUnchanged g (receiptHandler g m us now) t := by
  intro us
  induction us with
  | nil =>
    intro g m now _ id c _
    exact Iff.rfl
  | cons u rest ih =>
    intro g m now hfresh id c hct
    have hhead : ∀ c2, jsGet g.deliveryConfirmations u.messageId = some c2 → c2.merchantId ≠ t :=
      hfresh u (List.mem_cons_self u rest)
    have hstep : jsGet g.deliveryConfirmations id = some c ↔
        jsGet (receiptStep now g u).deliveryConfirmations id = some c := by
      rw [jsGet_receiptStep]
      by_cases hid : id = u.messageId
      · rw [if_pos hid]
        constructor
        · intro hx
          rw [hid] at hx
          exact absurd hct (hhead c hx)
        · intro hx
          cases h0 : jsGet g.deliveryConfirmations u.messageId with
          | none => rw [h0] at hx; simp at hx
          | some c0 =>
            rw [h0] at hx
            simp at hx
            have hm : c.merchantId = c0.merchantId := by
              rw [← hx]
              exact applyReceipt_merchantId c0 u.receipt now
            exact absurd (hm ▸ hct) (hhead c0 h0)
      · rw [if_neg hid]
    have hfresh2 : ∀ u2 ∈ rest, ∀ c2,
        jsGet (receiptStep now g u).deliveryConfirmations u2.messageId = some c2 →
        c2.merchantId ≠ t := by
      intro u2 hu2 c2 hc2
      rw [jsGet_receiptStep] at hc2
      by_cases hid : u2.messageId = u.messageId
      · rw [if_pos hid] at hc2
        cases h0 : jsGet g.deliveryConfirmations u.messageId with
        | none => rw [h0] at hc2; simp at hc2
        | some c0 =>
          rw [h0] at hc2
          simp at hc2
          rw [← hc2, applyReceipt_merchantId]
          exact hhead c0 h0
      · rw [if_neg hid] at hc2
        exact hfresh u2 (List.mem_cons_of_mem u hu2) c2 hc2
    have hrest := ih (receiptStep now g u) m now hfresh2 id c hct
    exact hstep.trans hrest

/-! ## Branch equations for `sendMessage` -/

theorem sendMessage_ok_eq (g : GlobalState) (m r x : String) (w : Bool) (now : Nat)
    (res : SentMsg) (b : Bool) (p : Nat) (h : connLive g m = true) :
    sendMessage g m r x w now (.ok res) b p =
      ({ g with
          sendTimestamps := jsSet g.sendTimestamps (m ++ ":" ++ r)
            (effectiveDispatch ((jsGet g.sendTimestamps (m ++ ":" ++ r)).getD 0) now),
          deliveryConfirmations := jsSet g.deliveryConfirmations res.id
            ({ status := "sent",
               timestamp := effectiveDispatch ((jsGet g.sendTimestamps (m ++ ":" ++ r)).getD 0) now,
               merchantId := m, recipient := r, attempt := 1 }) },
       .success
         { messageId := res.id
           timestamp := res.timestamp
           deliveryWaitTime :=
             effectiveDispatch ((jsGet g.sendTimestamps (m ++ ":" ++ r)).getD 0) now
               + (if w then (deliveryWaitOutcome b p).2 else 0) - now
           rateLimitApplied :=
             decide (now < (jsGet g.sendTimestamps (m ++ ":" ++ r)).getD 0 + MIN_DELAY_MS)
           rateLimitWaitTime :=
             if now < (jsGet g.sendTimestamps (m ++ ":" ++ r)).getD 0 + MIN_DELAY_MS
             then (jsGet g.sendTimestamps (m ++ ":" ++ r)).getD 0 + MIN_DELAY_MS - now
             else 0 }) := by
  simp [sendMessage, h]

theorem sendMessage_fail_eq (g : GlobalState) (m r x : String) (w : Bool) (now : Nat)
    (b : Bool) (p : Nat) (h : connLive g m = true) :
    sendMessage g m r x w now .fail b p =
      ({ g with
          sendTimestamps := jsSet
            (jsSet g.sendTimestamps (m ++ ":" ++ r)
              (effectiveDispatch ((jsGet g.sendTimestamps (m ++ ":" ++ r)).getD 0) now))
            (m ++ ":" ++ r ++ ":error")
            ((jsGet (jsSet g.sendTimestamps (m ++ ":" ++ r)
                (effectiveDispatch ((jsGet g.sendTimestamps (m ++ ":" ++ r)).getD 0) now))
              (m ++ ":" ++ r ++ ":error")).getD 0 + 1) },
       .sendFailed) := by
  simp [sendMessage, h]

/-! ## Concrete sample states used by witnesses and counterexamples -/

/-- A registered, connected tenant record. -/
def sampleConn : ConnectionInfo :=
  { socket := some (), status := "connected", phone := some "5215550001",
    pushName := some "Shop", connectedAt := 0 }

/-- A state with tenant `m1` connected. -/
def gLive : GlobalState :=
  { connections := [("m1", sampleConn)], qrCodes := [], messageStores := [],
    sendTimestamps := [], deliveryConfirmations := [], whatsappClients := [] }

/-- A state with no tenant registered at all. -/
def gEmpty : GlobalState :=
  { connections := [], qrCodes := [], messageStores := [],
    sendTimestamps := [], deliveryConfirmations := [], whatsappClients := [] }

/-- A state with tenant `m1` live in both registries plus a QR entry. -/
def gC7 : GlobalState :=
  { connections := [("m1", sampleConn)], qrCodes := [("m1", "qrdata")],
    messageStores := [], sendTimestamps := [], deliveryConfirmations := [],
    whatsappClients := [("m1", { client := some (), status := "connected" })] }

/-- A state for the close-event witness: tenant `m1` registered in the
connection registry, QR map and message-store map. -/
def gClose : GlobalState :=
  { connections := [("m1", sampleConn)], qrCodes := [("m1", "qrdata")],
    messageStores := [("m1", MessageStore.init "m1")], sendTimestamps := [],
    deliveryConfirmations := [], whatsappClients := [] }

/-- A Delivery Record that has already reached `read`, owned by `m2`. -/
def readRecord : Confirmation :=
  { status := "read", timestamp := 0, merchantId := "m2", recipient := "r",
    attempt := 1, deliveredAt := some 10, readAt := some 20 }

/-- A state whose only Delivery Record is `m2`'s read record at id `X`. -/
def gRead : GlobalState :=
  { connections := [], qrCodes := [], messageStores := [], sendTimestamps := [],
    deliveryConfirmations := [("X", readRecord)], whatsappClients := [] }

/-- A delivery-type receipt for message id `X`. -/
def deliveryReceiptX : ReceiptUpdate :=
  { messageId := "X",
    receipt := { rtype := some "delivery", deliveryTimestamp := some 30, readTimestamp := none } }

/-! ## Claims -/

/-- Claim C4: a close event with reason `loggedOut` (401) removes the
tenant's registry entry, QR code and Message Cache and schedules zero
reconnect attempts; a close event with any other reason schedules
exactly one reconnect attempt — after 1s for an ordinary
`connectionClosed` (428) drop and 3s for every other recoverable reason
— and does not deregister the tenant (the whole state is unchanged). -/
theorem C4_close_event (g : GlobalState) (m : String) (statusCode : Option Nat) :
    (statusCode = some DisconnectReasonLoggedOut →
      jsGet (handleConnectionClose g m statusCode).state.connections m = none
      ∧ jsGet (handleConnectionClose g m statusCode).state.qrCodes m = none
      ∧ jsGet (handleConnectionClose g m statusCode).state.messageStores m = none
      ∧ (handleConnectionClose g m statusCode).reconnectDelayMs = none)
    ∧ (statusCode ≠ some DisconnectReasonLoggedOut →
      (handleConnectionClose g m statusCode).state = g
      ∧ (handleConnectionClose g m statusCode).reconnectDelayMs =
          some (if statusCode = some DisconnectReasonConnectionClosed then 1000 else 3000)) := by
  constructor
  · intro h
    simp [handleConnectionClose, h, jsGet_jsDelete_self]
  · intro h
    simp [handleConnectionClose, h]

/-- Witness for C4 at a concrete state: logged-out close (401)
deregisters and schedules nothing; a 515 close schedules one 3s retry
and leaves the state untouched. -/
theorem C4_close_event_witness :
    (jsGet (handleConnectionClose gClose "m1" (some 401)).state.connections "m1" = none
     ∧ jsGet (handleConnectionClose gClose "m1" (some 401)).state.qrCodes "m1" = none
     ∧ jsGet (handleConnectionClose gClose "m1" (some 401)).state.messageStores "m1" = none
     ∧ (handleConnectionClose gClose "m1" (some 401)).reconnectDelayMs = none)
    ∧ ((handleConnectionClose gClose "m1" (some 515)).state = gClose
       ∧ (handleConnectionClose gClose "m1" (some 515)).reconnectDelayMs = some 3000) := by
  refine ⟨(C4_close_event gClose "m1" (some 401)).1 rfl, ?_⟩
  have h := (C4_close_event gClose "m1" (some 515)).2 (by decide)
  simpa using h

/-- The state left behind by `sendMessage`'s catch block
(`src/whatsapp.js` lines 750-752): the `merchantId:to:error` counter in
`global.messageSendTimestamps` is read and incremented. -/
def bumpErrorCounter (g : GlobalState) (merchantId recipient : String) : GlobalState :=
  { g with
      sendTimestamps := jsSet g.sendTimestamps (merchantId ++ ":" ++ recipient ++ ":error")
        ((jsGet g.sendTimestamps (merchantId ++ ":" ++ recipient ++ ":error")).getD 0 + 1) }

/-- Claim C5 (counterexample): a send for an unregistered tenant does
fail with `NotConnected`, but the throw is caught by `sendMessage`'s
own catch block, which reads and increments the failure counter in
`global.messageSendTimestamps` — the very map holding the Rate-Limit
Ledger — before rethrowing; the state is not left untouched and the
timestamps map is consulted, contrary to the claim. -/
theorem C5_counterexample :
    connLive gEmpty "m1" = false
    ∧ (sendMessage gEmpty "m1" "5215551234" "hi" true 0 (.ok ⟨"X", 1⟩) false 5000).2
        = SendResult.notConnected
    ∧ (sendMessage gEmpty "m1" "5215551234" "hi" true 0 (.ok ⟨"X", 1⟩) false 5000).1 ≠ gEmpty
    ∧ jsGet (sendMessage gEmpty "m1" "5215551234" "hi" true 0
          (.ok ⟨"X", 1⟩) false 5000).1.sendTimestamps
        ("m1" ++ ":" ++ "5215551234" ++ ":error") = some 1
    ∧ jsGet gEmpty.sendTimestamps ("m1" ++ ":" ++ "5215551234" ++ ":error") = none := by
  decide

/-- Claim C5 (amended): a send for a tenant with no live registered
socket fails with the `NotConnected` error; the state and result are
the same for every protocol outcome, so the protocol client's send is
never invoked; no Delivery Record is created; and the rate-limit
timestamp entry for `(tenant, recipient)` is neither read nor written
(the rate-limiting block is skipped entirely) — but the throw is caught
by `sendMessage`'s own catch, which increments the per-(tenant,
recipient) failure counter stored under the `:error` key in the same
timestamps map before rethrowing. -/
theorem C5_amended_not_connected (g : GlobalState) (m r x : String) (w : Bool) (now : Nat)
    (outcome : SendOutcome) (b : Bool) (p : Nat) (h : connLive g m = false) :
    sendMessage g m r x w now outcome b p
      = (bumpErrorCounter g m r, SendResult.notConnected)
    ∧ jsGet (sendMessage g m r x w now outcome b p).1.sendTimestamps (m ++ ":" ++ r)
        = jsGet g.sendTimestamps (m ++ ":" ++ r)
    ∧ (sendMessage g m r x w now outcome b p).1.deliveryConfirmations
        = g.deliveryConfirmations
    ∧ (sendMessage g m r x w now outcome b p).1.messageStores = g.messageStores := by
  have he : sendMessage g m r x w now outcome b p
      = (bumpErrorCounter g m r, SendResult.notConnected) := by
    simp [sendMessage, bumpErrorCounter, h]
  refine ⟨he, ?_, ?_, ?_⟩
  · rw [he]
    exact jsGet_jsSet_ne _ _ (append_error_ne (m ++ ":" ++ r))
  · rw [he]
    rfl
  · rw [he]
    rfl

/-- Witness for C5 (amended): a send for unregistered tenant `m1` in
the empty state, with every claim-relevant observable instantiated. -/
theorem C5_amended_not_connected_witness :
    sendMessage gEmpty "m1" "5215551234" "hi" true 0 (.ok ⟨"X", 1⟩) false 5000
      = (bumpErrorCounter gEmpty "m1" "5215551234", SendResult.notConnected)
    ∧ jsGet (sendMessage gEmpty "m1" "5215551234" "hi" true 0
          (.ok ⟨"X", 1⟩) false 5000).1.sendTimestamps ("m1" ++ ":" ++ "5215551234")
        = jsGet gEmpty.sendTimestamps ("m1" ++ ":" ++ "5215551234")
    ∧ (sendMessage gEmpty "m1" "5215551234" "hi" true 0
          (.ok ⟨"X", 1⟩) false 5000).1.deliveryConfirmations
        = gEmpty.deliveryConfirmations
    ∧ (sendMessage gEmpty "m1" "5215551234" "hi" true 0
          (.ok ⟨"X", 1⟩) false 5000).1.messageStores = gEmpty.messageStores :=
  C5_amended_not_connected gEmpty "m1" "5215551234" "hi" true 0 (.ok ⟨"X", 1⟩) false 5000
    (by decide)

/-- Claim C7 (code evaluated at the failing input): in
`src/handlers.js`'s `handleDisconnect` a throwing `logout()` aborts the
request with a 500 before any cleanup, leaving the registry entry, the
QR entry and the session files in place — contradicting the required
"cleanup must never be skipped"; the success path, and both paths of
`src/whatsapp-web.js`'s `disconnectClient`, do clean up. -/
theorem C7_cleanup_skipped_on_logout_failure :
    (handleDisconnect gC7 (some "m1") true).1 = gC7
    ∧ (handleDisconnect gC7 (some "m1") true).2 = (DisconnectResponse.serverError, false)
    ∧ jsGet (handleDisconnect gC7 (some "m1") true).1.connections "m1" = some sampleConn
    ∧ (handleDisconnect gC7 (some "m1") false).1.connections = []
    ∧ (handleDisconnect gC7 (some "m1") false).1.qrCodes = []
    ∧ (handleDisconnect gC7 (some "m1") false).2 = (DisconnectResponse.ok, true)
    ∧ (disconnectClient gC7 "m1" true).1.whatsappClients = []
    ∧ (disconnectClient gC7 "m1" true).1.qrCodes = []
    ∧ (disconnectClient gC7 "m1" true).2 = (false, true)
    ∧ (disconnectClient gC7 "m1" false).1.whatsappClients = [] := by
  decide

/-- Claim C8: requesting session creation for a tenant whose registered
connection has status `connected` returns the `already_connected`
success result carrying the stored phone and display name, starts no
new protocol client, and leaves the state unchanged. -/
theorem C8_auth_idempotent (g : GlobalState) (m : String) (c : ConnectionInfo)
    (h : jsGet g.connections m = some c) (hst : c.status = "connected") :
    handleAuth g (some m) = (g, AuthResponse.alreadyConnected c.phone c.pushName, false) := by
  simp [handleAuth, h, hst]

/-- Witness for C8: re-requesting auth for connected tenant `m1`. -/
theorem C8_auth_idempotent_witness :
    handleAuth gLive (some "m1")
      = (gLive, AuthResponse.alreadyConnected (some "5215550001") (some "Shop"), false) :=
  C8_auth_idempotent gLive "m1" sampleConn (by decide) (by decide)

/-- Claim C9 (counterexample): a delivery-type receipt arriving after a
read-type receipt does not leave the record's status at `read` — the
handler unconditionally overwrites it back to `delivered`. -/
theorem C9_counterexample :
    (jsGet gRead.deliveryConfirmations "X").map Confirmation.status = some "read"
    ∧ (jsGet (receiptHandler gRead "m2" [deliveryReceiptX] 30).deliveryConfirmations "X").map
        Confirmation.status = some "delivered" := by
  decide

/-- Claim C9 (amended): for a present Delivery Record, a receipt event
applies `applyReceipt`: a delivery-type receipt always sets status
`delivered` (even regressing a `read` record), otherwise a read-type
receipt sets `read`, otherwise the record is unchanged; consequently a
record that has left `sent` never returns to `sent`. -/
theorem C9_amended_receipt_transitions (g : GlobalState) (m : String) (u : ReceiptUpdate)
    (c : Confirmation) (now : Nat)
    (h : jsGet g.deliveryConfirmations u.messageId = some c) :
    jsGet (receiptHandler g m [u] now).deliveryConfirmations u.messageId
        = some (applyReceipt c u.receipt now)
    ∧ ((u.receipt.rtype = some "delivery" ∨ u.receipt.deliveryTimestamp.getD 0 ≠ 0) →
        (applyReceipt c u.receipt now).status = "delivered")
    ∧ (¬(u.receipt.rtype = some "delivery" ∨ u.receipt.deliveryTimestamp.getD 0 ≠ 0) →
        (u.receipt.rtype = some "read" ∨ u.receipt.readTimestamp.getD 0 ≠ 0) →
        (applyReceipt c u.receipt now).status = "read")
    ∧ (¬(u.receipt.rtype = some "delivery" ∨ u.receipt.deliveryTimestamp.getD 0 ≠ 0) →
        ¬(u.receipt.rtype = some "read" ∨ u.receipt.readTimestamp.getD 0 ≠ 0) →
        applyReceipt c u.receipt now = c)
    ∧ (c.status ≠ "sent" → (applyReceipt c u.receipt now).status ≠ "sent") := by
  refine ⟨?_, ?_, ?_, ?_, ?_⟩
  · show jsGet (receiptStep now g u).deliveryConfirmations u.messageId = _
    rw [jsGet_receiptStep, if_pos rfl, h, Option.map]
  · intro hd
    simp [applyReceipt, hd]
  · intro hd hr
    simp [applyReceipt, hd, hr]
  · intro hd hr
    simp [applyReceipt, hd, hr]
  · intro hs
    unfold applyReceipt
    split
    · simp
    · split
      · simp
      · exact hs

/-- Witness for C9 (amended), at `m2`'s read record: the delivery
receipt regresses it to `delivered`. -/
theorem C9_amended_receipt_transitions_witness :
    jsGet (receiptHandler gRead "m2" [deliveryReceiptX] 30).deliveryConfirmations
        deliveryReceiptX.messageId
      = some (applyReceipt readRecord deliveryReceiptX.receipt 30)
    ∧ ((deliveryReceiptX.receipt.rtype = some "delivery"
          ∨ deliveryReceiptX.receipt.deliveryTimestamp.getD 0 ≠ 0) →
        (applyReceipt readRecord deliveryReceiptX.receipt 30).status = "delivered")
    ∧ (¬(deliveryReceiptX.receipt.rtype = some "delivery"
          ∨ deliveryReceiptX.receipt.deliveryTimestamp.getD 0 ≠ 0) →
        (deliveryReceiptX.receipt.rtype = some "read"
          ∨ deliveryReceiptX.receipt.readTimestamp.getD 0 ≠ 0) →
        (applyReceipt readRecord deliveryReceiptX.receipt 30).status = "read")
    ∧ (¬(deliveryReceiptX.receipt.rtype = some "delivery"
          ∨ deliveryReceiptX.receipt.deliveryTimestamp.getD 0 ≠ 0) →
        ¬(deliveryReceiptX.receipt.rtype = some "read"
          ∨ deliveryReceiptX.receipt.readTimestamp.getD 0 ≠ 0) →
        applyReceipt readRecord deliveryReceiptX.receipt 30 = readRecord)
    ∧ (readRecord.status ≠ "sent" →
        (applyReceipt readRecord deliveryReceiptX.receipt 30).status ≠ "sent") :=
  C9_amended_receipt_transitions gRead "m2" deliveryReceiptX readRecord 30 (by decide)

/-- Claim C10: on every send for a connected tenant the Rate-Limit
Ledger entry for `(tenant, recipient)` is set to the dispatch-attempt
time before the protocol send is invoked — so when the protocol-level
send fails, the call rethrows (`sendFailed`) with that ledger entry
already updated (delaying the next send to the same recipient), with no
Delivery Record created, and with the per-recipient failure counter
incremented; the same ledger write is visible on the success path. -/
theorem C10_ledger_updated_before_dispatch (g : GlobalState) (m r x : String) (w : Bool)
    (now : Nat) (b : Bool) (p : Nat) (h : connLive g m = true) :
    (sendMessage g m r x w now .fail b p).2 = SendResult.sendFailed
    ∧ jsGet (sendMessage g m r x w now .fail b p).1.sendTimestamps (m ++ ":" ++ r)
        = some (effectiveDispatch ((jsGet g.sendTimestamps (m ++ ":" ++ r)).getD 0) now)
    ∧ (sendMessage g m r x w now .fail b p).1.deliveryConfirmations = g.deliveryConfirmations
    ∧ jsGet (sendMessage g m r x w now .fail b p).1.sendTimestamps (m ++ ":" ++ r ++ ":error")
        = some ((jsGet g.sendTimestamps (m ++ ":" ++ r ++ ":error")).getD 0 + 1)
    ∧ (∀ res : SentMsg,
        jsGet (sendMessage g m r x w now (.ok res) b p).1.sendTimestamps (m ++ ":" ++ r)
          = some (effectiveDispatch ((jsGet g.sendTimestamps (m ++ ":" ++ r)).getD 0) now)) := by
  have hne : m ++ ":" ++ r ++ ":error" ≠ m ++ ":" ++ r := append_error_ne (m ++ ":" ++ r)
  refine ⟨?_, ?_, ?_, ?_, ?_⟩
  · rw [sendMessage_fail_eq g m r x w now b p h]
  · rw [sendMessage_fail_eq g m r x w now b p h]
    show jsGet (jsSet (jsSet g.sendTimestamps (m ++ ":" ++ r)
        (effectiveDispatch ((jsGet g.sendTimestamps (m ++ ":" ++ r)).getD 0) now))
        (m ++ ":" ++ r ++ ":error") _) (m ++ ":" ++ r) = _
    rw [jsGet_jsSet_ne _ _ hne, jsGet_jsSet_self]
  · rw [sendMessage_fail_eq g m r x w now b p h]
  · rw [sendMessage_fail_eq g m r x w now b p h]
    show jsGet (jsSet _ (m ++ ":" ++ r ++ ":error") _) (m ++ ":" ++ r ++ ":error") = _
    rw [jsGet_jsSet_self, jsGet_jsSet_ne _ _ (Ne.symm hne)]
  · intro res
    rw [sendMessage_ok_eq g m r x w now res b p h]
    exact jsGet_jsSet_self _ _ _

/-- Witness for C10 at a concrete connected state and a failing send. -/
theorem C10_ledger_updated_before_dispatch_witness :
    (sendMessage gLive "m1" "r" "hi" true 9000 .fail false 5000).2 = SendResult.sendFailed
    ∧ jsGet (sendMessage gLive "m1" "r" "hi" true 9000 .fail false 5000).1.sendTimestamps
          ("m1" ++ ":" ++ "r")
        = some (effectiveDispatch ((jsGet gLive.sendTimestamps ("m1" ++ ":" ++ "r")).getD 0) 9000)
    ∧ (sendMessage gLive "m1" "r" "hi" true 9000 .fail false 5000).1.deliveryConfirmations
        = gLive.deliveryConfirmations
    ∧ jsGet (sendMessage gLive "m1" "r" "hi" true 9000 .fail false 5000).1.sendTimestamps
          ("m1" ++ ":" ++ "r" ++ ":error")
        = some ((jsGet gLive.sendTimestamps ("m1" ++ ":" ++ "r" ++ ":error")).getD 0 + 1)
    ∧ (∀ res : SentMsg,
        jsGet (sendMessage gLive "m1" "r" "hi" true 9000 (.ok res) false 5000).1.sendTimestamps
            ("m1" ++ ":" ++ "r")
          = some (effectiveDispatch ((jsGet gLive.sendTimestamps ("m1" ++ ":" ++ "r")).getD 0) 9000)) :=
  C10_ledger_updated_before_dispatch gLive "m1" "r" "hi" true 9000 false 5000 (by decide)

/-- Claim C3: when a second send to the same `(tenant, recipient)` pair
starts less than `MIN_DELAY_MS` after the first call's effective
dispatch time, the second call waits, its effective dispatch timestamp
(recorded in the ledger) equals the first dispatch timestamp plus the
minimum delay — hence is ≥ it — and the message is still dispatched,
returning success rather than being dropped. -/
theorem C3_rate_limit_serializes (g : GlobalState) (m r x : String) (w1 w2 : Bool)
    (now1 now2 : Nat) (res1 res2 : SentMsg) (b1 b2 : Bool) (p1 p2 : Nat)
    (hconn : connLive g m = true)
    (h2 : now2 < effectiveDispatch ((jsGet g.sendTimestamps (m ++ ":" ++ r)).getD 0) now1
            + MIN_DELAY_MS) :
    jsGet (sendMessage g m r x w1 now1 (.ok res1) b1 p1).1.sendTimestamps (m ++ ":" ++ r)
        = some (effectiveDispatch ((jsGet g.sendTimestamps (m ++ ":" ++ r)).getD 0) now1)
    ∧ jsGet (sendMessage (sendMessage g m r x w1 now1 (.ok res1) b1 p1).1
          m r x w2 now2 (.ok res2) b2 p2).1.sendTimestamps (m ++ ":" ++ r)
        = some (effectiveDispatch ((jsGet g.sendTimestamps (m ++ ":" ++ r)).getD 0) now1
            + MIN_DELAY_MS)
    ∧ (∃ d2, (sendMessage (sendMessage g m r x w1 now1 (.ok res1) b1 p1).1
          m r x w2 now2 (.ok res2) b2 p2).2 = SendResult.success d2
        ∧ d2.messageId = res2.id) := by
  have e1 := sendMessage_ok_eq g m r x w1 now1 res1 b1 p1 hconn
  have hconn2 : connLive (sendMessage g m r x w1 now1 (.ok res1) b1 p1).1 m = true := by
    rw [e1]
    exact hconn
  have e2 := sendMessage_ok_eq (sendMessage g m r x w1 now1 (.ok res1) b1 p1).1
    m r x w2 now2 res2 b2 p2 hconn2
  have hledger1 :
      jsGet (sendMessage g m r x w1 now1 (.ok res1) b1 p1).1.sendTimestamps (m ++ ":" ++ r)
        = some (effectiveDispatch ((jsGet g.sendTimestamps (m ++ ":" ++ r)).getD 0) now1) := by
    rw [e1]
    exact jsGet_jsSet_self _ _ _
  have hdisp2 :
      effectiveDispatch
          ((jsGet (sendMessage g m r x w1 now1 (.ok res1) b1 p1).1.sendTimestamps
            (m ++ ":" ++ r)).getD 0) now2
        = effectiveDispatch ((jsGet g.sendTimestamps (m ++ ":" ++ r)).getD 0) now1
            + MIN_DELAY_MS := by
    rw [hledger1]
    show effectiveDispatch _ now2 = _
    unfold effectiveDispatch
    rw [if_pos]
    · rfl
    · exact h2
  refine ⟨hledger1, ?_, ?_⟩
  · rw [e2]
    show jsGet (jsSet _ (m ++ ":" ++ r) _) (m ++ ":" ++ r) = _
    rw [jsGet_jsSet_self, hdisp2]
  · rw [e2]
    exact ⟨_, rfl, rfl⟩

/-- Witness for C3: two back-to-back sends to the same recipient 100ms
apart; the second is dispatched exactly `MIN_DELAY_MS` after the first. -/
theorem C3_rate_limit_serializes_witness :
    jsGet (sendMessage gLive "m1" "r" "hi" true 10000 (.ok ⟨"A", 1⟩) false 5000).1.sendTimestamps
        ("m1" ++ ":" ++ "r")
      = some (effectiveDispatch ((jsGet gLive.sendTimestamps ("m1" ++ ":" ++ "r")).getD 0) 10000)
    ∧ jsGet (sendMessage (sendMessage gLive "m1" "r" "hi" true 10000 (.ok ⟨"A", 1⟩) false 5000).1
          "m1" "r" "hi" true 10100 (.ok ⟨"B", 2⟩) false 5000).1.sendTimestamps ("m1" ++ ":" ++ "r")
      = some (effectiveDispatch ((jsGet gLive.sendTimestamps ("m1" ++ ":" ++ "r")).getD 0) 10000
          + MIN_DELAY_MS)
    ∧ (∃ d2, (sendMessage (sendMessage gLive "m1" "r" "hi" true 10000 (.ok ⟨"A", 1⟩) false 5000).1
          "m1" "r" "hi" true 10100 (.ok ⟨"B", 2⟩) false 5000).2 = SendResult.success d2
        ∧ d2.messageId = "B") :=
  C3_rate_limit_serializes gLive "m1" "r" "hi" true true 10000 10100 ⟨"A", 1⟩ ⟨"B", 2⟩
    false false 5000 5000 (by decide) (by decide)

/-- Claim C6 (counterexample): two sends that are identical except that
in one a delivery confirmation arrived during the wait and in the other
none did produce literally the same state and the same returned result
— the return value carries no `confirmed` field, so it does not
indicate whether delivery was confirmed. -/
theorem C6_counterexample :
    sendMessage gLive "m1" "r" "hi" true 1000 (SendOutcome.ok ⟨"X", 7⟩) true 5000
      = sendMessage gLive "m1" "r" "hi" true 1000 (SendOutcome.ok ⟨"X", 7⟩) false 5000
    ∧ (deliveryWaitOutcome true 5000).1 = true
    ∧ (deliveryWaitOutcome false 5000).1 = false := by
  decide

/-- Claim C6 (amended): with delivery-wait enabled and no receipt
arriving, the call returns normally — a success result, not an error —
at exactly the 5s timeout after dispatch; when the record is confirmed
at a poll within the window the wait ends at that poll (≤ 5s); the
internal race outcome is `confirmed = false` on timeout and
`confirmed = true` on confirmation, but the returned result object has
no confirmation field: the two boundary runs coincide entirely. -/
theorem C6_amended_delivery_wait (g : GlobalState) (m r x : String) (now : Nat)
    (res : SentMsg) (p : Nat) (hconn : connLive g m = true)
    (hp : p ≤ DELIVERY_TIMEOUT_MS) :
    (sendMessage g m r x true now (.ok res) false p).2
      = SendResult.success
          { messageId := res.id
            timestamp := res.timestamp
            deliveryWaitTime :=
              effectiveDispatch ((jsGet g.sendTimestamps (m ++ ":" ++ r)).getD 0) now
                + DELIVERY_TIMEOUT_MS - now
            rateLimitApplied :=
              decide (now < (jsGet g.sendTimestamps (m ++ ":" ++ r)).getD 0 + MIN_DELAY_MS)
            rateLimitWaitTime :=
              if now < (jsGet g.sendTimestamps (m ++ ":" ++ r)).getD 0 + MIN_DELAY_MS
              then (jsGet g.sendTimestamps (m ++ ":" ++ r)).getD 0 + MIN_DELAY_MS - now
              else 0 }
    ∧ (∀ b : Bool, (deliveryWaitOutcome b p).2 ≤ DELIVERY_TIMEOUT_MS)
    ∧ (deliveryWaitOutcome false p).1 = false
    ∧ deliveryWaitOutcome true p = (true, p)
    ∧ sendMessage g m r x true now (.ok res) true DELIVERY_TIMEOUT_MS
        = sendMessage g m r x true now (.ok res) false DELIVERY_TIMEOUT_MS := by
  refine ⟨?_, ?_, ?_, ?_, ?_⟩
  · rw [sendMessage_ok_eq g m r x true now res false p hconn]
    simp [deliveryWaitOutcome]
  · intro b
    cases b <;> simp [deliveryWaitOutcome, hp]
  · simp [deliveryWaitOutcome]
  · simp [deliveryWaitOutcome]
  · rw [sendMessage_ok_eq g m r x true now res true DELIVERY_TIMEOUT_MS hconn,
        sendMessage_ok_eq g m r x true now res false DELIVERY_TIMEOUT_MS hconn]
    simp [deliveryWaitOutcome]

/-- Witness for C6 (amended) at a concrete connected state with a poll
window of 3000ms. -/
theorem C6_amended_delivery_wait_witness :
    (sendMessage gLive "m1" "r" "hi" true 8000 (.ok ⟨"X", 7⟩) false 3000).2
      = SendResult.success
          { messageId := "X"
            timestamp := 7
            deliveryWaitTime :=
              effectiveDispatch ((jsGet gLive.sendTimestamps ("m1" ++ ":" ++ "r")).getD 0) 8000
                + DELIVERY_TIMEOUT_MS - 8000
            rateLimitApplied :=
              decide (8000 < (jsGet gLive.sendTimestamps ("m1" ++ ":" ++ "r")).getD 0
                + MIN_DELAY_MS)
            rateLimitWaitTime :=
              if 8000 < (jsGet gLive.sendTimestamps ("m1" ++ ":" ++ "r")).getD 0 + MIN_DELAY_MS
              then (jsGet gLive.sendTimestamps ("m1" ++ ":" ++ "r")).getD 0 + MIN_DELAY_MS - 8000
              else 0 }
    ∧ (∀ b : Bool, (deliveryWaitOutcome b 3000).2 ≤ DELIVERY_TIMEOUT_MS)
    ∧ (deliveryWaitOutcome false 3000).1 = false
    ∧ deliveryWaitOutcome true 3000 = (true, 3000)
    ∧ sendMessage gLive "m1" "r" "hi" true 8000 (.ok ⟨"X", 7⟩) true DELIVERY_TIMEOUT_MS
        = sendMessage gLive "m1" "r" "hi" true 8000 (.ok ⟨"X", 7⟩) false DELIVERY_TIMEOUT_MS :=
  C6_amended_delivery_wait gLive "m1" "r" "hi" 8000 ⟨"X", 7⟩ 3000 (by decide) (by decide)

theorem ledger_key_ne {T1 T2 : String} (r suffix : String) (hne : T1 ≠ T2)
    (h1 : noColon T1) (h2 : noColon T2) :
    T1 ++ ":" ++ r ≠ T2 ++ ":" ++ suffix :=
  fun h => hne (append_colon_inj h1 h2 h)

theorem errkey_eq_append (T1 r : String) :
    T1 ++ ":" ++ r ++ ":error" = T1 ++ ":" ++ (r ++ ":error") := by
  apply String.ext
  simp [String.data_append]

theorem ledger_errkey_ne {T1 T2 : String} (r suffix : String) (hne : T1 ≠ T2)
    (h1 : noColon T1) (h2 : noColon T2) :
    T1 ++ ":" ++ r ++ ":error" ≠ T2 ++ ":" ++ suffix := by
  rw [errkey_eq_append]
  exact ledger_key_ne (r ++ ":error") suffix hne h1 h2

/-- Claim C1 (counterexample): a receipt event arriving on tenant `m1`'s
socket reads and mutates the Delivery Record owned by tenant `m2`
(stored `merchantId` is `m2`), because the handler looks records up in
the process-wide map by message id alone. -/
theorem C1_counterexample :
    readRecord.merchantId = "m2"
    ∧ ("m1" : String) ≠ "m2"
    ∧ jsGet gRead.deliveryConfirmations "X" = some readRecord
    ∧ jsGet (receiptHandler gRead "m1" [deliveryReceiptX] 30).deliveryConfirmations "X"
        ≠ some readRecord
    ∧ (jsGet (receiptHandler gRead "m1" [deliveryReceiptX] 30).deliveryConfirmations "X").map
        Confirmation.merchantId = some "m2" := by
  decide

/-- Claim C1 (amended): operations on tenant `T1`'s session are isolated
from tenant `T2` up to the key collisions the shared maps allow.
Message-cache stores on `T1` leave `T2`'s Message Cache, Delivery
Records and Rate-Limit Ledger untouched, and cache lookups for `T1`
read only `T1`'s cache.  A receipt event on `T1`'s socket leaves
`T2`-owned Delivery Records untouched provided none of the receipt's
message ids matches a `T2`-owned record (without that proviso the
records are read and mutated, as the counterexample shows).  A send by
`T1` leaves `T2`'s Message Cache, `T2`-owned Delivery Records (provided
the protocol-assigned message id does not collide with one) and `T2`'s
ledger keys (tenant ids contain no `':'`) untouched, on both the
success and the failure path. -/
theorem C1_amended_isolation (T1 T2 : String) (hne : T1 ≠ T2)
    (h1 : noColon T1) (h2 : noColon T2) :
    (∀ (g : GlobalState) (msgs : List WAMessage),
        storeOfTenant (upsertHandler g T1 msgs) T2 = storeOfTenant g T2
        ∧ (upsertHandler g T1 msgs).deliveryConfirmations = g.deliveryConfirmations
        ∧ (upsertHandler g T1 msgs).sendTimestamps = g.sendTimestamps)
    ∧ (∀ (g : GlobalState) (key : MsgKey) (s2 : MessageStore),
        getMessageForTenant { g with messageStores := jsSet g.messageStores T2 s2 } T1 key
          = getMessageForTenant g T1 key)
    ∧ (∀ (g : GlobalState) (us : List ReceiptUpdate) (now : Nat),
        (∀ u ∈ us, ∀ c, jsGet g.deliveryConfirmations u.messageId = some c →
          c.merchantId ≠ T2) →
        recordsOfTenantUnchanged g (receiptHandler g T1 us now) T2
        ∧ (receiptHandler g T1 us now).messageStores = g.messageStores
        ∧ (receiptHandler g T1 us now).sendTimestamps = g.sendTimestamps)
    ∧ (∀ (g : GlobalState) (r x : String) (w : Bool) (now : Nat) (res : SentMsg)
        (b : Bool) (p : Nat),
        (∀ c, jsGet g.deliveryConfirmations res.id = some c → c.merchantId ≠ T2) →
        recordsOfTenantUnchanged g (sendMessage g T1 r x w now (.ok res) b p).1 T2
        ∧ ledgerOfTenantUnchanged g (sendMessage g T1 r x w now (.ok res) b p).1 T2
        ∧ storeOfTenant (sendMessage g T1 r x w now (.ok res) b p).1 T2
            = storeOfTenant g T2)
    ∧ (∀ (g : GlobalState) (r x : String) (w : Bool) (now : Nat) (b : Bool) (p : Nat),
        recordsOfTenantUnchanged g (sendMessage g T1 r x w now .fail b p).1 T2
        ∧ ledgerOfTenantUnchanged g (sendMessage g T1 r x w now .fail b p).1 T2
        ∧ storeOfTenant (sendMessage g T1 r x w now .fail b p).1 T2 = storeOfTenant g T2) := by
  refine ⟨?_, ?_, ?_, ?_, ?_⟩
  · intro g msgs
    unfold upsertHandler storeOfTenant
    cases hms : jsGet g.messageStores T1 with
    | none => exact ⟨rfl, rfl, rfl⟩
    | some store =>
      refine ⟨?_, rfl, rfl⟩
      exact jsGet_jsSet_ne _ _ hne
  · intro g key s2
    unfold getMessageForTenant
    dsimp only
    rw [jsGet_jsSet_ne _ _ (Ne.symm hne)]
  · intro g us now hfresh
    exact ⟨receiptHandler_records T2 us g T1 now hfresh,
      receiptHandler_messageStores g T1 us now, receiptHandler_sendTimestamps g T1 us now⟩
  · intro g r x w now res b p hfresh
    cases hc : connLive g T1 with
    | false =>
      have hnc : sendMessage g T1 r x w now (.ok res) b p
          = (bumpErrorCounter g T1 r, .notConnected) := by
        simp [sendMessage, bumpErrorCounter, hc]
      rw [hnc]
      refine ⟨fun id c _ => Iff.rfl, ?_, rfl⟩
      intro suffix
      dsimp only [bumpErrorCounter]
      rw [jsGet_jsSet_ne _ _ (ledger_errkey_ne r suffix hne h1 h2)]
    | true =>
      rw [sendMessage_ok_eq g T1 r x w now res b p hc]
      refine ⟨?_, ?_, rfl⟩
      · intro id c hct
        dsimp only
        by_cases hid : id = res.id
        · subst hid
          constructor
          · intro hx
            exact absurd hct (hfresh c hx)
          · intro hx
            rw [jsGet_jsSet_self] at hx
            have hcm : c.merchantId = T1 := by
              cases hx
              rfl
            rw [hcm] at hct
            exact absurd hct hne
        · rw [jsGet_jsSet_ne _ _ (fun he => hid he.symm)]
      · intro suffix
        dsimp only
        rw [jsGet_jsSet_ne _ _ (ledger_key_ne r suffix hne h1 h2)]
  · intro g r x w now b p
    cases hc : connLive g T1 with
    | false =>
      have hnc : sendMessage g T1 r x w now .fail b p
          = (bumpErrorCounter g T1 r, .notConnected) := by
        simp [sendMessage, bumpErrorCounter, hc]
      rw [hnc]
      refine ⟨fun id c _ => Iff.rfl, ?_, rfl⟩
      intro suffix
      dsimp only [bumpErrorCounter]
      rw [jsGet_jsSet_ne _ _ (ledger_errkey_ne r suffix hne h1 h2)]
    | true =>
      rw [sendMessage_fail_eq g T1 r x w now b p hc]
      refine ⟨fun id c _ => Iff.rfl, ?_, rfl⟩
      intro suffix
      dsimp only
      rw [jsGet_jsSet_ne _ _ (ledger_errkey_ne r suffix hne h1 h2),
        jsGet_jsSet_ne _ _ (ledger_key_ne r suffix hne h1 h2)]

/-- Witness for C1 (amended) at `T1 = "t1"`, `T2 = "t2"`: the three
top-level hypotheses are discharged concretely. -/
theorem C1_amended_isolation_witness :
    ("t1" : String) ≠ "t2"
    ∧ noColon "t1"
    ∧ noColon "t2"
    ∧ ((∀ (g : GlobalState) (msgs : List WAMessage),
        storeOfTenant (upsertHandler g "t1" msgs) "t2" = storeOfTenant g "t2"
        ∧ (upsertHandler g "t1" msgs).deliveryConfirmations = g.deliveryConfirmations
        ∧ (upsertHandler g "t1" msgs).sendTimestamps = g.sendTimestamps)
    ∧ (∀ (g : GlobalState) (key : MsgKey) (s2 : MessageStore),
        getMessageForTenant { g with messageStores := jsSet g.messageStores "t2" s2 } "t1" key
          = getMessageForTenant g "t1" key)
    ∧ (∀ (g : GlobalState) (us : List ReceiptUpdate) (now : Nat),
        (∀ u ∈ us, ∀ c, jsGet g.deliveryConfirmations u.messageId = some c →
          c.merchantId ≠ "t2") →
        recordsOfTenantUnchanged g (receiptHandler g "t1" us now) "t2"
        ∧ (receiptHandler g "t1" us now).messageStores = g.messageStores
        ∧ (receiptHandler g "t1" us now).sendTimestamps = g.sendTimestamps)
    ∧ (∀ (g : GlobalState) (r x : String) (w : Bool) (now : Nat) (res : SentMsg)
        (b : Bool) (p : Nat),
        (∀ c, jsGet g.deliveryConfirmations res.id = some c → c.merchantId ≠ "t2") →
        recordsOfTenantUnchanged g (sendMessage g "t1" r x w now (.ok res) b p).1 "t2"
        ∧ ledgerOfTenantUnchanged g (sendMessage g "t1" r x w now (.ok res) b p).1 "t2"
        ∧ storeOfTenant (sendMessage g "t1" r x w now (.ok res) b p).1 "t2"
            = storeOfTenant g "t2")
    ∧ (∀ (g : GlobalState) (r x : String) (w : Bool) (now : Nat) (b : Bool) (p : Nat),
        recordsOfTenantUnchanged g (sendMessage g "t1" r x w now .fail b p).1 "t2"
        ∧ ledgerOfTenantUnchanged g (sendMessage g "t1" r x w now .fail b p).1 "t2"
        ∧ storeOfTenant (sendMessage g "t1" r x w now .fail b p).1 "t2"
            = storeOfTenant g "t2")) :=
  ⟨by decide, by decide, by decide,
    C1_amended_isolation "t1" "t2" (by decide) (by decide) (by decide)⟩

/-! ## Eviction lemmas for the Message Cache -/

theorem cleanupStep_messages (s : MessageStore) (mid : String) :
    (cleanupStep s mid).messages = jsDelete s.messages mid := by
  unfold cleanupStep
  cases jsGet s.messages mid <;> rfl

theorem cleanupStep_byJid (s : MessageStore) (mid : String) :
    (cleanupStep s mid).messagesByJid =
      match jsGet s.messages mid with
      | some d => jidSetDelete s.messagesByJid d.key.remoteJid mid
      | none => s.messagesByJid := by
  unfold cleanupStep
  cases jsGet s.messages mid <;> rfl

theorem jidSetDelete_not_mem (m : List (String × List String)) (jid mid : String) :
    mid ∉ (jsGet (jidSetDelete m jid mid) jid).getD [] := by
  unfold jidSetDelete
  cases h : jsGet m jid with
  | none => simp [h]
  | some s0 =>
    rw [jsGet_jsSet_self]
    simp only [Option.getD_some]
    intro hx
    exact (mem_jsErase.mp hx).2 rfl

theorem jidSetDelete_mono (m : List (String × List String)) (jid0 mid jid x : String)
    (hx : x ∈ (jsGet (jidSetDelete m jid0 mid) jid).getD []) :
    x ∈ (jsGet m jid).getD [] := by
  unfold jidSetDelete at hx
  cases hj : jsGet m jid0 with
  | none =>
    rw [hj] at hx
    exact hx
  | some s0 =>
    rw [hj] at hx
    have hx2 : x ∈ (jsGet (jsSet m jid0 (jsErase s0 mid)) jid).getD [] := hx
    by_cases hjj : jid0 = jid
    · subst hjj
      rw [jsGet_jsSet_self] at hx2
      simp only [Option.getD_some] at hx2
      have hmem : x ∈ s0 := (mem_jsErase.mp hx2).1
      rw [hj]
      simpa using hmem
    · rw [jsGet_jsSet_ne _ _ hjj] at hx2
      exact hx2

theorem cleanupStep_byJid_mono (s : MessageStore) (mid jid x : String)
    (hx : x ∈ (jsGet (cleanupStep s mid).messagesByJid jid).getD []) :
    x ∈ (jsGet s.messagesByJid jid).getD [] := by
  rw [cleanupStep_byJid] at hx
  cases hd : jsGet s.messages mid with
  | none =>
    rw [hd] at hx
    exact hx
  | some d =>
    rw [hd] at hx
    exact jidSetDelete_mono s.messagesByJid d.key.remoteJid mid jid x hx

theorem foldl_cleanup_byJid_mono (jid x : String) :
    ∀ (ids : List String) (s : MessageStore),
      x ∉ (jsGet s.messagesByJid jid).getD [] →
      x ∉ (jsGet (ids.foldl cleanupStep s).messagesByJid jid).getD [] := by
  intro ids
  induction ids with
  | nil => intro s h; exact h
  | cons a rest ih =>
    intro s h
    rw [List.foldl_cons]
    refine ih (cleanupStep s a) ?_
    intro hx
    exact h (cleanupStep_byJid_mono s a jid x hx)

theorem cleanupStep_removes_own (s : MessageStore) (mid : String) (d : MessageData)
    (hget : jsGet s.messages mid = some d) :
    mid ∉ (jsGet (cleanupStep s mid).messagesByJid d.key.remoteJid).getD [] := by
  rw [cleanupStep_byJid, hget]
  exact jidSetDelete_not_mem s.messagesByJid d.key.remoteJid mid

theorem cleanupStep_cons_messages (s : MessageStore) (id : String) (d : MessageData)
    (rest : List (String × MessageData)) (hs : s.messages = (id, d) :: rest)
    (hnotmem : id ∉ rest.map Prod.fst) :
    (cleanupStep s id).messages = rest := by
  rw [cleanupStep_messages, hs]
  rw [show jsDelete ((id, d) :: rest) id = jsDelete rest id from by simp [jsDelete]]
  exact jsDelete_of_not_mem rest id hnotmem

theorem cleanup_fold_messages :
    ∀ (l : List (String × MessageData)) (k : Nat) (s : MessageStore),
      s.messages = l → (l.map Prod.fst).Nodup →
      (((l.map Prod.fst).take k).foldl cleanupStep s).messages = l.drop k := by
  intro l
  induction l with
  | nil =>
    intro k s hs _
    simp only [List.map_nil, List.take_nil, List.foldl_nil, List.drop_nil, hs]
  | cons hd rest ih =>
    intro k s hs hnodup
    obtain ⟨id, d⟩ := hd
    cases k with
    | zero => simpa using hs
    | succ k2 =>
      have hnd : id ∉ rest.map Prod.fst ∧ (rest.map Prod.fst).Nodup := by
        simpa using hnodup
      have hstep : (cleanupStep s id).messages = rest :=
        cleanupStep_cons_messages s id d rest hs hnd.1
      rw [List.map_cons, List.take_succ_cons, List.foldl_cons, List.drop_succ_cons]
      exact ih k2 (cleanupStep s id) hstep hnd.2

theorem cleanup_fold_evicted :
    ∀ (l : List (String × MessageData)) (k : Nat) (s : MessageStore),
      s.messages = l → (l.map Prod.fst).Nodup →
      ∀ p ∈ l.take k,
        p.1 ∉ (jsGet (((l.map Prod.fst).take k).foldl cleanupStep s).messagesByJid
          p.2.key.remoteJid).getD [] := by
  intro l
  induction l with
  | nil =>
    intro k s _ _ p hp
    simp at hp
  | cons hd rest ih =>
    intro k s hs hnodup p hp
    obtain ⟨id, d⟩ := hd
    cases k with
    | zero => simp at hp
    | succ k2 =>
      have hnd : id ∉ rest.map Prod.fst ∧ (rest.map Prod.fst).Nodup := by
        simpa using hnodup
      have hget : jsGet s.messages id = some d := by
        rw [hs]
        simp [jsGet]
      have hstep : (cleanupStep s id).messages = rest :=
        cleanupStep_cons_messages s id d rest hs hnd.1
      rw [List.take_succ_cons, List.mem_cons] at hp
      rw [List.map_cons, List.take_succ_cons, List.foldl_cons]
      cases hp with
      | inl hpeq =>
        subst hpeq
        exact foldl_cleanup_byJid_mono _ _ _ (cleanupStep s id)
          (cleanupStep_removes_own s id d hget)
      | inr hp2 =>
        exact ih k2 (cleanupStep s id) hstep hnd.2 p hp2

theorem storeInsert_messages (s : MessageStore) (m : WAMessage) :
    (s.storeInsert m).messages = jsSet s.messages m.key.id
      { key := m.key, message := m.message, messageTimestamp := m.messageTimestamp,
        status := orNullNat m.status, participant := orNullStr m.key.participant } := rfl

theorem storeInsert_maxMessages (s : MessageStore) (m : WAMessage) :
    (s.storeInsert m).maxMessages = s.maxMessages := rfl

theorem storeMessage_eq_cleanup (s : MessageStore) (m : WAMessage)
    (hover : (s.storeInsert m).messages.length > s.maxMessages) :
    s.storeMessage m = (s.storeInsert m).cleanup := by
  unfold MessageStore.storeMessage
  have h2 : (s.storeInsert m).messages.length > (s.storeInsert m).maxMessages := by
    rw [storeInsert_maxMessages]
    exact hover
  simp [h2]

/-- Claim C2: when a store makes the cache exceed its capacity, the
cache immediately evicts exactly `⌊0.2 × size⌋` entries — the oldest
ones by insertion order (the final map is the tail of the post-insert
map); every evicted message id is afterwards reported "not found" by
lookup; and each evicted id is removed from the set of its stored
conversation id (`remoteJid`) in the secondary index. -/
theorem C2_store_eviction (s : MessageStore) (m : WAMessage)
    (hnodup : (s.messages.map Prod.fst).Nodup)
    (hover : (s.storeInsert m).messages.length > s.maxMessages) :
    (s.storeMessage m).messages
        = (s.storeInsert m).messages.drop ((s.storeInsert m).messages.length / 5)
    ∧ (s.storeMessage m).messages.length
        = (s.storeInsert m).messages.length - (s.storeInsert m).messages.length / 5
    ∧ (∀ key : MsgKey,
        key.id ∈ ((s.storeInsert m).messages.map Prod.fst).take
          ((s.storeInsert m).messages.length / 5) →
        (s.storeMessage m).getMessage key = none)
    ∧ (∀ p ∈ (s.storeInsert m).messages.take ((s.storeInsert m).messages.length / 5),
        p.1 ∉ (jsGet (s.storeMessage m).messagesByJid p.2.key.remoteJid).getD []) := by
  have hnodup2 : ((s.storeInsert m).messages.map Prod.fst).Nodup := by
    rw [storeInsert_messages]
    exact nodup_keys_jsSet _ _ _ hnodup
  have heq := storeMessage_eq_cleanup s m hover
  have hmsgs : (s.storeMessage m).messages
      = (s.storeInsert m).messages.drop ((s.storeInsert m).messages.length / 5) := by
    rw [heq]
    exact cleanup_fold_messages (s.storeInsert m).messages
      ((s.storeInsert m).messages.length / 5) (s.storeInsert m) rfl hnodup2
  refine ⟨hmsgs, ?_, ?_, ?_⟩
  · rw [hmsgs, List.length_drop]
  · intro key hk
    show jsGet (s.storeMessage m).messages key.id = none
    rw [hmsgs]
    apply jsGet_eq_none_of_not_mem
    have hsplit : ((s.storeInsert m).messages.map Prod.fst).take
          ((s.storeInsert m).messages.length / 5)
        ++ ((s.storeInsert m).messages.map Prod.fst).drop
          ((s.storeInsert m).messages.length / 5)
        = (s.storeInsert m).messages.map Prod.fst := List.take_append_drop _ _
    have hdisj := (List.nodup_append.mp (hsplit ▸ hnodup2)).2.2
    rw [List.map_drop]
    exact hdisj hk
  · intro p hp
    rw [heq]
    exact cleanup_fold_evicted (s.storeInsert m).messages
      ((s.storeInsert m).messages.length / 5) (s.storeInsert m) rfl hnodup2 p hp

/-- A stored cache entry used by the C2 witness. -/
def mkData (id jid : String) : MessageData :=
  { key := { id := id, remoteJid := jid, fromMe := false, participant := none },
    message := some "hello", messageTimestamp := 1, status := none, participant := none }

/-- An incoming message used by the C2 witness. -/
def mkMsg (id jid : String) : WAMessage :=
  { key := { id := id, remoteJid := jid, fromMe := false, participant := none },
    message := some "hello", messageTimestamp := 1, status := none }

/-- A cache holding four messages at capacity four. -/
def sC2 : MessageStore :=
  { merchantId := "m1",
    messages := [("a", mkData "a" "j"), ("b", mkData "b" "j"),
                 ("c", mkData "c" "j"), ("d", mkData "d" "j")],
    messagesByJid := [("j", ["a", "b", "c", "d"])],
    maxMessages := 4 }

/-- Witness for C2: storing a fifth message into a capacity-4 cache
evicts `⌊0.2 × 5⌋ = 1` entry, the oldest (`a`). -/
theorem C2_store_eviction_witness :
    (sC2.messages.map Prod.fst).Nodup
    ∧ (sC2.storeInsert (mkMsg "e" "j")).messages.length > sC2.maxMessages
    ∧ ((sC2.storeMessage (mkMsg "e" "j")).messages
        = (sC2.storeInsert (mkMsg "e" "j")).messages.drop
            ((sC2.storeInsert (mkMsg "e" "j")).messages.length / 5)
      ∧ (sC2.storeMessage (mkMsg "e" "j")).messages.length
        = (sC2.storeInsert (mkMsg "e" "j")).messages.length
            - (sC2.storeInsert (mkMsg "e" "j")).messages.length / 5
      ∧ (∀ key : MsgKey,
          key.id ∈ ((sC2.storeInsert (mkMsg "e" "j")).messages.map Prod.fst).take
            ((sC2.storeInsert (mkMsg "e" "j")).messages.length / 5) →
          (sC2.storeMessage (mkMsg "e" "j")).getMessage key = none)
      ∧ (∀ p ∈ (sC2.storeInsert (mkMsg "e" "j")).messages.take
            ((sC2.storeInsert (mkMsg "e" "j")).messages.length / 5),
          p.1 ∉ (jsGet (sC2.storeMessage (mkMsg "e" "j")).messagesByJid
            p.2.key.remoteJid).getD [])) :=
  ⟨by decide, by decide, C2_store_eviction sC2 (mkMsg "e" "j") (by decide) (by decide)⟩

end WhatsappServer
